import Mathlib

/-! MagpieBridge VS Code client: notification routing.

A shallow embedding of `vscode/extension/client/out/extension.js`.

The extension creates one text-editor decoration type, starts a language
client and, once the client is ready, registers two notification handlers:

* `magpiebridge/jumpTo` reveals a range in every visible text editor and
  decorates it;
* `magpiebridge/showHTML` opens a webview panel whose message listener turns a
  `jumpTo` message into an HTTP GET.

The host editor, the console and the requests issued are modelled as one
explicit state; every function below takes the state before a call and returns
the state after it.  Which arguments `http.get` refuses is a parameter,
`HttpModule`.  Callbacks that JavaScript runs later (the message listener, the
response, data, end and error callbacks) are functions of their own, and
`step` delivers one event to the callback registered for it.
-/

namespace MagpieBridge

/-! ## JavaScript values -/

mutual
/-- A JavaScript value as it can arrive in a webview message. -/
inductive JSValue
  | undefined
  | null
  | boolean (b : Bool)
  | number (n : Int)
  | string (s : String)
  | object (props : JSProps)
/-- The own properties of a JavaScript object, first binding of a key wins. -/
inductive JSProps
  | nil
  | cons (key : String) (val : JSValue) (rest : JSProps)
end

deriving instance DecidableEq for JSValue

/-- Look a key up among the own properties of an object. -/
def JSProps.find : JSProps → String → Option JSValue
  | .nil, _ => none
  | .cons key val rest, k => if key = k then some val else rest.find k

/-- A fault raised by JavaScript code. -/
inductive Fault
  | typeError (msg : String)
  deriving DecidableEq, Repr

/-- Property access `v.k`.  Reading a property of `undefined` or `null` raises
a TypeError; a property that is absent reads as `undefined`; booleans, numbers
and strings have no property of the names used here. -/
def JSValue.getProp (v : JSValue) (k : String) : Except Fault JSValue :=
  match v with
  | .undefined => .error (.typeError ("Cannot read property " ++ k ++ " of undefined"))
  | .null => .error (.typeError ("Cannot read property " ++ k ++ " of null"))
  | .object props => .ok ((props.find k).getD .undefined)
  | _ => .ok .undefined

/-- Strict equality `v === s` of a value with a string literal. -/
def JSValue.strictEqString (v : JSValue) (s : String) : Bool :=
  match v with
  | .string t => t == s
  | _ => false

/-! ## Editor data -/

/-- A position in a document. -/
structure Position where
  line : Nat
  character : Nat
  deriving DecidableEq, Repr

/-- A range in a document. -/
structure Range where
  start : Position
  «end» : Position
  deriving DecidableEq, Repr

/-- The payload of a `magpiebridge/jumpTo` notification. -/
structure Location where
  uri : String
  range : Range
  deriving DecidableEq, Repr

/-- The reveal types of `vscode.TextEditorRevealType`. -/
inductive TextEditorRevealType
  | Default
  | InCenter
  | InCenterIfOutsideViewport
  | AtTop
  deriving DecidableEq, Repr

/-- The view columns of `vscode.ViewColumn`. -/
inductive ViewColumn
  | Active
  | Beside
  | One
  | Two
  | Three
  deriving DecidableEq, Repr

/-- The style descriptor handed to `createTextEditorDecorationType`. -/
structure DecorationRenderOptions where
  border : String
  deriving DecidableEq, Repr

/-- A handle of a decoration type: its index in the list of created types. -/
structure TextEditorDecorationType where
  key : Nat
  deriving DecidableEq, Repr

/-- A text editor pane.  `revealed` is the range the viewport was last asked to
show and how; `decorations` holds, per decoration type key, the ranges
currently decorated with it. -/
structure TextEditor where
  document : String
  visible : Bool
  revealed : Option (Range × TextEditorRevealType)
  decorations : List (Nat × List Range)
  deriving DecidableEq, Repr

/-- The options of a webview panel. -/
structure WebviewOptions where
  enableScripts : Bool
  enableCommandUris : Bool
  deriving DecidableEq, Repr

/-- A webview panel: how it was created, its current content and the number of
message listeners registered on it. -/
structure WebviewPanel where
  viewType : String
  title : String
  showOptions : ViewColumn
  options : WebviewOptions
  html : String
  listeners : Nat
  deriving DecidableEq, Repr

/-- What `context.subscriptions` holds. -/
inductive Disposable
  | clientStart
  | messageListener (panel : Nat)
  deriving DecidableEq, Repr

/-- An outbound request made with `http.get`.  `url` is the first argument of
the call; `data` is the variable of the response callback, absent until that
callback has run. -/
structure ClientRequest where
  url : JSValue
  data : Option String
  deriving DecidableEq

/-- An error object as handed to the error callback. -/
structure JSError where
  message : String
  deriving DecidableEq, Repr

/-- One entry of `documentSelector`. -/
structure DocumentFilter where
  scheme : String
  language : String
  deriving DecidableEq, Repr

/-- The server options of the language client. -/
structure ServerOptions where
  command : String
  args : List String
  deriving DecidableEq, Repr

/-- The language client held in the module variable `client`. -/
structure LanguageClient where
  id : String
  name : String
  serverOptions : ServerOptions
  documentSelector : List DocumentFilter
  features : List String
  handlers : List String
  started : Bool
  deriving DecidableEq, Repr

/-- Everything the extension can change or observe. -/
structure State where
  editors : List TextEditor
  decorationTypes : List DecorationRenderOptions
  panels : List WebviewPanel
  subscriptions : List Disposable
  requests : List ClientRequest
  console : List String
  client : Option LanguageClient
  deriving DecidableEq

/-- The state of a host with the given editor panes before the extension is
activated. -/
def State.initial (editors : List TextEditor) : State :=
  { editors := editors, decorationTypes := [], panels := [], subscriptions := [],
    requests := [], console := [], client := none }

/-! ## Host primitives -/

/-- The call `vscode.window.createTextEditorDecorationType(options)`. -/
def createTextEditorDecorationType (options : DecorationRenderOptions) (s : State) :
    TextEditorDecorationType × State :=
  (⟨s.decorationTypes.length⟩, { s with decorationTypes := s.decorationTypes ++ [options] })

/-- The call `e.revealRange(range, revealType)`. -/
def TextEditor.revealRange (e : TextEditor) (range : Range)
    (revealType : TextEditorRevealType) : TextEditor :=
  { e with revealed := some (range, revealType) }

/-- The call `e.setDecorations(decorationType, ranges)`: the ranges replace the
ones the editor held under that decoration type. -/
def TextEditor.setDecorations (e : TextEditor) (decorationType : TextEditorDecorationType)
    (ranges : List Range) : TextEditor :=
  { e with decorations :=
      (decorationType.key, ranges) :: e.decorations.filter (fun d => d.1 ≠ decorationType.key) }

/-- The ranges an editor holds under a decoration type. -/
def TextEditor.decorated (e : TextEditor) (decorationType : TextEditorDecorationType) :
    List Range :=
  (e.decorations.lookup decorationType.key).getD []

/-- The list `vscode.window.visibleTextEditors`. -/
def visibleTextEditors (s : State) : List TextEditor :=
  s.editors.filter (fun e => e.visible)

/-- Run `f` on each element of `vscode.window.visibleTextEditors`, in place. -/
def forEachVisible (f : TextEditor → TextEditor) (s : State) : State :=
  { s with editors := s.editors.map (fun e => if e.visible then f e else e) }

/-- The call `vscode.window.createWebviewPanel(viewType, title, showOptions, options)`:
a new panel with empty content; the result is its index. -/
def createWebviewPanel (viewType title : String) (showOptions : ViewColumn)
    (options : WebviewOptions) (s : State) : Nat × State :=
  (s.panels.length,
   { s with panels := s.panels ++
      [{ viewType := viewType, title := title, showOptions := showOptions,
         options := options, html := "", listeners := 0 }] })

/-- Change the panel at an index, if there is one. -/
def modifyPanel (f : WebviewPanel → WebviewPanel) (panel : Nat) (s : State) : State :=
  { s with panels := s.panels.modify f panel }

/-- The call `panel.webview.onDidReceiveMessage(listener, undefined, context.subscriptions)`:
the listener is registered and its disposable is pushed to the subscriptions. -/
def registerMessageListener (panel : Nat) (s : State) : State :=
  let s1 := modifyPanel (fun p => { p with listeners := p.listeners + 1 }) panel s
  { s1 with subscriptions := s1.subscriptions ++ [.messageListener panel] }

/-- The assignment `panel.webview.html = html`. -/
def setHtml (panel : Nat) (html : String) (s : State) : State :=
  modifyPanel (fun p => { p with html := html }) panel s

/-- The call `console.log(line)`. -/
def consoleLog (line : String) (s : State) : State :=
  { s with console := s.console ++ [line] }

/-- The part of the `http` module of Node.js that the message listener depends
on.  The module is no part of this repository, so what it does with the first
argument of `http.get` is a parameter: `rejects url` is the fault that
`http.get` throws at once for an argument it refuses (a string that is no URL,
a protocol other than `http:`), and `none` when it takes the argument and
creates the request. -/
structure HttpModule where
  rejects : JSValue → Option Fault

/-- The call `http.get(url, callback).on("error", errorCallback)`.  When the
module refuses `url` the call throws: no request exists and no listener is
attached.  Otherwise one request is issued; its callbacks run later, see
`step`. -/
def httpGet (http : HttpModule) (url : JSValue) (s : State) : Except Fault State :=
  match http.rejects url with
  | some fault => .error fault
  | none => .ok { s with requests := s.requests ++ [{ url := url, data := none }] }

/-! ## The callbacks of the extension -/

/-- The response callback of `http.get`: `let data = ''`. -/
def responseCallback (req : Nat) (s : State) : State :=
  { s with requests := s.requests.modify (fun r => { r with data := some "" }) req }

/-- The listener `resp.on('data', ...)`: `data += chunk`. -/
def dataCallback (req : Nat) (chunk : String) (s : State) : State :=
  { s with requests := s.requests.modify (fun r => { r with data := r.data.map (· ++ chunk) }) req }

/-- The listener `resp.on('end', ...)`: `console.log("DONE")`. -/
def endCallback (s : State) : State :=
  consoleLog "DONE" s

/-- The listener `.on("error", ...)`: `console.log("Error: " + err.message)`. -/
def errorCallback (err : JSError) (s : State) : State :=
  consoleLog ("Error: " ++ err.message) s

/-- The listener given to `panel.webview.onDidReceiveMessage`: a `switch` on
`message.command` with the single case `'jumpTo'`, which calls
`http.get(message.text, ...)`.  Nothing catches what `http.get` throws, so the
fault leaves the listener. -/
def onDidReceiveMessage (http : HttpModule) (message : JSValue) (s : State) :
    Except Fault State := do
  let command ← message.getProp "command"
  if command.strictEqString "jumpTo" then
    let text ← message.getProp "text"
    httpGet http text s
  else
    return s

/-- The handler of `magpiebridge/jumpTo`.  The handler reads `loc.uri` into a
variable it never uses: every visible editor is treated alike. -/
def jumpToHandler (decorationType : TextEditorDecorationType) (loc : Location) (s : State) :
    State :=
  forEachVisible
    (fun e => (e.revealRange loc.range .InCenter).setDecorations decorationType [loc.range]) s

/-- The handler of `magpiebridge/showHTML`. -/
def showHTMLHandler (html title : String) (_popup : JSValue) (s : State) : State :=
  let (panel, s1) := createWebviewPanel "magpieBridge" title .Beside
    { enableScripts := true, enableCommandUris := true } s
  let s2 := registerMessageListener panel s1
  setHtml panel html s2

/-- The body of `client.onReady().then(...)`: both handlers are registered. -/
def onReady (s : State) : State :=
  { s with client := s.client.map fun c =>
      { c with handlers := c.handlers ++ ["magpiebridge/jumpTo", "magpiebridge/showHTML"] } }

/-- The function `activate(context)`.  `resources` is
`path.resolve(__dirname, '../../resources')`.  The result carries the
decoration type that the handlers close over. -/
def activate (resources : String) (s : State) : TextEditorDecorationType × State :=
  let serverOptions : ServerOptions :=
    { command := "java", args := ["-jar", resources ++ "/zhinu-0.0.1-SNAPSHOT-织女.jar"] }
  let documentSelector : List DocumentFilter :=
    [ { scheme := "file", language := "python" },
      { scheme := "file", language := "javascript" },
      { scheme := "file", language := "html" },
      { scheme := "file", language := "java" } ]
  let (decorationType, s1) := createTextEditorDecorationType { border := "2px solid white" } s
  let client : LanguageClient :=
    { id := "languageServerExample", name := "Language Server Example",
      serverOptions := serverOptions, documentSelector := documentSelector,
      features := [], handlers := [], started := false }
  let client := { client with features := client.features ++ ["ShowHTMLFeature"] }
  let client := { client with started := true }
  (decorationType,
   { s1 with client := some client, subscriptions := s1.subscriptions ++ [.clientStart] })

/-- The function `deactivate()`: without a client nothing happens, otherwise
the client is stopped. -/
def deactivate (s : State) : State :=
  match s.client with
  | none => s
  | some c => { s with client := some { c with started := false } }

/-! ## Event delivery -/

/-- What the host, the language client and the HTTP library can deliver. -/
inductive Event
  | ready
  | jumpTo (loc : Location)
  | showHTML (html title : String) (popup : JSValue)
  | message (panel : Nat) (message : JSValue)
  | response (req : Nat)
  | data (req : Nat) (chunk : String)
  | «end» (req : Nat)
  | error (req : Nat) (err : JSError)

/-- Whether the client has a handler for a notification method. -/
def hasHandler (method : String) (s : State) : Bool :=
  match s.client with
  | some c => c.handlers.contains method
  | none => false

/-- Whether the response callback of a request has run, so that its data and
end listeners exist. -/
def responding (req : Nat) (s : State) : Bool :=
  match s.requests[req]? with
  | some r => r.data.isSome
  | none => false

/-- Whether a panel has a message listener. -/
def listening (panel : Nat) (s : State) : Bool :=
  match s.panels[panel]? with
  | some p => 0 < p.listeners
  | none => false

/-- Deliver one event to the callback registered for it.  An event without a
registered callback is dropped. -/
def step (http : HttpModule) (decorationType : TextEditorDecorationType) (ev : Event)
    (s : State) : Except Fault State :=
  match ev with
  | .ready => .ok (onReady s)
  | .jumpTo loc =>
      if hasHandler "magpiebridge/jumpTo" s then .ok (jumpToHandler decorationType loc s)
      else .ok s
  | .showHTML html title popup =>
      if hasHandler "magpiebridge/showHTML" s then .ok (showHTMLHandler html title popup s)
      else .ok s
  | .message panel message =>
      if listening panel s then onDidReceiveMessage http message s else .ok s
  | .response req => .ok (responseCallback req s)
  | .data req chunk => if responding req s then .ok (dataCallback req chunk s) else .ok s
  | .«end» req => if responding req s then .ok (endCallback s) else .ok s
  | .error req err => if req < s.requests.length then .ok (errorCallback err s) else .ok s

/-- Deliver a sequence of events in order.  A fault raised by a callback is
contained by the emitter that called it and the state stays as the callback
left it, which here is the state before the call. -/
def run (http : HttpModule) (decorationType : TextEditorDecorationType) :
    List Event → State → State
  | [], s => s
  | ev :: evs, s =>
      match step http decorationType ev s with
      | .ok s1 => run http decorationType evs s1
      | .error _ => run http decorationType evs s

/-! ## Sequences used to state the properties -/

/-- The parameters of one `magpiebridge/showHTML` notification. -/
structure ShowHTMLParams where
  html : String
  title : String
  popup : JSValue

/-- Handle a sequence of `magpiebridge/showHTML` notifications in order. -/
def showHTMLAll : List ShowHTMLParams → State → State
  | [], s => s
  | c :: cs, s => showHTMLAll cs (showHTMLHandler c.html c.title c.popup s)

/-- The events of one response to request `req`: the response callback, one
data event per chunk, then the end event. -/
def responseEvents (req : Nat) (chunks : List String) : List Event :=
  .response req :: (chunks.map (.data req) ++ [.«end» req])

/-- The first arguments of the `http.get` calls made so far. -/
def State.fetches (s : State) : List JSValue :=
  s.requests.map (·.url)

/-! ## Facts about the host primitives -/

theorem modify_append_length {α : Type} (f : α → α) (l : List α) (a : α) :
    (l ++ [a]).modify f l.length = l ++ [f a] := by
  induction l with
  | nil => rfl
  | cons x xs ih => simpa [List.modify_succ_cons] using ih

theorem decorated_setDecorations (e : TextEditor) (dt : TextEditorDecorationType)
    (ranges : List Range) : (e.setDecorations dt ranges).decorated dt = ranges := by
  simp [TextEditor.decorated, TextEditor.setDecorations, List.lookup]

theorem lookup_filter_ne (k j : Nat) (h : j ≠ k) (l : List (Nat × List Range)) :
    (l.filter (fun d => d.1 ≠ k)).lookup j = l.lookup j := by
  induction l with
  | nil => rfl
  | cons x xs ih =>
    obtain ⟨a, b⟩ := x
    by_cases hak : a = k
    · subst hak
      have hja : (j == a) = false := by simpa using h
      simpa [List.filter, List.lookup, hja] using ih
    · by_cases hj : j = a
      · subst hj
        simp [List.filter, List.lookup, hak]
      · have hja : (j == a) = false := by simpa using hj
        simpa [List.filter, List.lookup, hak, hja] using ih

theorem setDecorations_other (e : TextEditor) (dt : TextEditorDecorationType)
    (ranges : List Range) (j : Nat) (h : j ≠ dt.key) :
    (e.setDecorations dt ranges).decorations.lookup j = e.decorations.lookup j := by
  have hj : (j == dt.key) = false := by simpa using h
  simp only [TextEditor.setDecorations, List.lookup, hj]
  exact lookup_filter_ne dt.key j h e.decorations

theorem jumpTo_editors_getElem? (dt : TextEditorDecorationType) (loc : Location) (s : State)
    (i : Nat) :
    (jumpToHandler dt loc s).editors[i]? =
      (s.editors[i]?).map (fun e =>
        if e.visible then (e.revealRange loc.range .InCenter).setDecorations dt [loc.range]
        else e) := by
  simp [jumpToHandler, forEachVisible]

theorem jumpTo_visible_step (dt : TextEditorDecorationType) (loc : Location) (s : State)
    (i : Nat) (e : TextEditor) (he : s.editors[i]? = some e) (hv : e.visible = true) :
    (jumpToHandler dt loc s).editors[i]? =
      some ((e.revealRange loc.range .InCenter).setDecorations dt [loc.range]) := by
  rw [jumpTo_editors_getElem?, he]
  simp [hv]

theorem jumpTo_hidden_step (dt : TextEditorDecorationType) (loc : Location) (s : State)
    (i : Nat) (e : TextEditor) (he : s.editors[i]? = some e) (hv : e.visible = false) :
    (jumpToHandler dt loc s).editors[i]? = some e := by
  rw [jumpTo_editors_getElem?, he]
  simp [hv]

theorem visibleTextEditors_map (f : TextEditor → TextEditor)
    (hf : ∀ e, (f e).visible = e.visible) (l : List TextEditor) :
    (l.map (fun e => if e.visible then f e else e)).filter (fun e => e.visible) =
      (l.filter (fun e => e.visible)).map f := by
  induction l with
  | nil => rfl
  | cons x xs ih =>
    cases hx : x.visible with
    | true => simp [List.filter, hx, hf, ih]
    | false => simp [List.filter, hx, ih]

theorem visibleTextEditors_jumpTo (dt : TextEditorDecorationType) (loc : Location) (s : State) :
    visibleTextEditors (jumpToHandler dt loc s) =
      (visibleTextEditors s).map
        (fun e => (e.revealRange loc.range .InCenter).setDecorations dt [loc.range]) := by
  simp only [visibleTextEditors, jumpToHandler, forEachVisible]
  exact visibleTextEditors_map
    (fun e => (e.revealRange loc.range .InCenter).setDecorations dt [loc.range])
    (fun _ => rfl) s.editors

/-! ## Examples used below -/

/-- Line 2, columns 0 to 5. -/
def rangeA : Range := { start := { line := 2, character := 0 }, «end» := { line := 2, character := 5 } }

/-- Line 7, columns 1 to 4. -/
def rangeB : Range := { start := { line := 7, character := 1 }, «end» := { line := 7, character := 4 } }

/-- A location in `file:///a.py`. -/
def locA : Location := { uri := "file:///a.py", range := rangeA }

/-- Another location in `file:///a.py`. -/
def locB : Location := { uri := "file:///a.py", range := rangeB }

/-- A visible pane showing `file:///a.py`. -/
def paneA : TextEditor :=
  { document := "file:///a.py", visible := true, revealed := none, decorations := [] }

/-- A pane that is not visible, decorated by someone else under key 5. -/
def paneB : TextEditor :=
  { document := "file:///b.py", visible := false, revealed := none,
    decorations := [(5, [rangeB])] }

/-- A host with one visible and one hidden pane. -/
def twoPanes : State := State.initial [paneA, paneB]

/-- A stand-in for the `http` module in the examples: of the strings it takes
`http://x/y` only and refuses every other one as an invalid URL; a value that
is no string is taken as an options object. -/
def stubHttp : HttpModule :=
  { rejects := fun url =>
      match url with
      | .string t => if t = "http://x/y" then none else some (.typeError "ERR_INVALID_URL")
      | _ => none }

/-! ## The jumpTo handler -/

/-- C1: after the `magpiebridge/jumpTo` handler has run on `L1` and then on a
distinct `L2`, every pane that was visible is still a visible pane and holds
exactly `[L2.range]` under the shared decoration type; the range of `L1`, when
it differs from that of `L2`, is no longer decorated. -/
theorem jumpTo_replaces_previous (dt : TextEditorDecorationType) (L1 L2 : Location)
    (s : State) (i : Nat) (e : TextEditor) (_hdistinct : L1 ≠ L2)
    (he : s.editors[i]? = some e) (hv : e.visible = true) :
    ∃ e2, (jumpToHandler dt L2 (jumpToHandler dt L1 s)).editors[i]? = some e2 ∧
      e2.visible = true ∧ e2.decorated dt = [L2.range] ∧
      (L1.range ≠ L2.range → L1.range ∉ e2.decorated dt) := by
  have h1 := jumpTo_visible_step dt L1 s i e he hv
  have h2 := jumpTo_visible_step dt L2 (jumpToHandler dt L1 s) i _ h1
    (by simp [TextEditor.setDecorations, TextEditor.revealRange, hv])
  refine ⟨_, h2, ?_, ?_, ?_⟩
  · simp [TextEditor.setDecorations, TextEditor.revealRange, hv]
  · exact decorated_setDecorations _ dt [L2.range]
  · intro hne
    rw [decorated_setDecorations]
    simpa using hne

/-- Witness of C1 on a host with one visible pane and two locations. -/
theorem jumpTo_replaces_previous_witness :
    ∃ e2, (jumpToHandler ⟨0⟩ locB (jumpToHandler ⟨0⟩ locA twoPanes)).editors[0]? = some e2 ∧
      e2.visible = true ∧ e2.decorated ⟨0⟩ = [locB.range] ∧
      (locA.range ≠ locB.range → locA.range ∉ e2.decorated ⟨0⟩) :=
  jumpTo_replaces_previous ⟨0⟩ locA locB twoPanes 0 paneA (by decide) (by decide) (by decide)

/-- C2: the `magpiebridge/jumpTo` handler keeps the list of panes and the
number of visible ones; every pane visible afterwards has `loc.range` revealed
with reveal type `InCenter` and holds exactly `[loc.range]` under the shared
decoration type.  Pane by pane: a pane that was visible, whatever document it
shows, is revealed and decorated so; a pane that was not visible is
unchanged. -/
theorem jumpTo_reveals_and_decorates (dt : TextEditorDecorationType) (loc : Location)
    (s : State) (i : Nat) (e : TextEditor) (he : s.editors[i]? = some e) :
    (jumpToHandler dt loc s).editors.length = s.editors.length ∧
    (visibleTextEditors (jumpToHandler dt loc s)).length = (visibleTextEditors s).length ∧
    (∀ e1 ∈ visibleTextEditors (jumpToHandler dt loc s),
      e1.revealed = some (loc.range, TextEditorRevealType.InCenter) ∧
      e1.decorated dt = [loc.range]) ∧
    ∃ e1, (jumpToHandler dt loc s).editors[i]? = some e1 ∧
      e1.document = e.document ∧ e1.visible = e.visible ∧
      (e.visible = true →
        e1.revealed = some (loc.range, TextEditorRevealType.InCenter) ∧
        e1.decorated dt = [loc.range]) ∧
      (e.visible = false → e1 = e) := by
  refine ⟨by simp [jumpToHandler, forEachVisible], by simp [visibleTextEditors_jumpTo], ?_, ?_⟩
  · intro e1 h1
    rw [visibleTextEditors_jumpTo, List.mem_map] at h1
    obtain ⟨e0, _, rfl⟩ := h1
    exact ⟨rfl, decorated_setDecorations _ dt [loc.range]⟩
  cases hv : e.visible with
  | true =>
    refine ⟨_, jumpTo_visible_step dt loc s i e he hv, rfl, ?_, ?_, ?_⟩
    · simp [TextEditor.setDecorations, TextEditor.revealRange, hv]
    · intro _
      exact ⟨rfl, decorated_setDecorations _ dt [loc.range]⟩
    · intro h
      cases h
  | false =>
    refine ⟨e, jumpTo_hidden_step dt loc s i e he hv, rfl, hv, ?_, ?_⟩
    · intro h
      cases h
    · intro _
      rfl

/-- Witness of C2 at the hidden pane of a host with one visible and one hidden
pane. -/
theorem jumpTo_reveals_and_decorates_witness :
    (jumpToHandler ⟨0⟩ locA twoPanes).editors.length = twoPanes.editors.length ∧
    (visibleTextEditors (jumpToHandler ⟨0⟩ locA twoPanes)).length =
      (visibleTextEditors twoPanes).length ∧
    (∀ e1 ∈ visibleTextEditors (jumpToHandler ⟨0⟩ locA twoPanes),
      e1.revealed = some (locA.range, TextEditorRevealType.InCenter) ∧
      e1.decorated ⟨0⟩ = [locA.range]) ∧
    ∃ e1, (jumpToHandler ⟨0⟩ locA twoPanes).editors[1]? = some e1 ∧
      e1.document = paneB.document ∧ e1.visible = paneB.visible ∧
      (paneB.visible = true →
        e1.revealed = some (locA.range, TextEditorRevealType.InCenter) ∧
        e1.decorated ⟨0⟩ = [locA.range]) ∧
      (paneB.visible = false → e1 = paneB) :=
  jumpTo_reveals_and_decorates ⟨0⟩ locA twoPanes 1 paneB (by decide)

/-- C9: the `magpiebridge/jumpTo` handler is idempotent: running it twice on the
same location gives the same state as running it once. -/
theorem jumpTo_idempotent (dt : TextEditorDecorationType) (L : Location) (s : State) :
    jumpToHandler dt L (jumpToHandler dt L s) = jumpToHandler dt L s := by
  have hf : ∀ e : TextEditor,
      (if (if e.visible then (e.revealRange L.range .InCenter).setDecorations dt [L.range]
            else e).visible
        then ((if e.visible then (e.revealRange L.range .InCenter).setDecorations dt [L.range]
            else e).revealRange L.range .InCenter).setDecorations dt [L.range]
        else (if e.visible then (e.revealRange L.range .InCenter).setDecorations dt [L.range]
            else e)) =
      (if e.visible then (e.revealRange L.range .InCenter).setDecorations dt [L.range]
        else e) := by
    intro e
    cases hv : e.visible with
    | true =>
      simp [TextEditor.setDecorations, TextEditor.revealRange, hv, List.filter_filter]
    | false => simp [hv]
  simp only [jumpToHandler, forEachVisible, List.map_map]
  congr 1
  apply List.map_congr_left
  intro e _
  exact hf e

/-! ## The showHTML handler -/

theorem showHTML_panels (html title : String) (popup : JSValue) (s : State) :
    (showHTMLHandler html title popup s).panels = s.panels ++
      [{ viewType := "magpieBridge", title := title, showOptions := .Beside,
         options := { enableScripts := true, enableCommandUris := true },
         html := html, listeners := 1 }] := by
  simp [showHTMLHandler, createWebviewPanel, registerMessageListener, setHtml, modifyPanel,
    modify_append_length]

theorem showHTMLAll_panels (calls : List ShowHTMLParams) (s : State) :
    (showHTMLAll calls s).panels = s.panels ++ calls.map (fun c =>
      { viewType := "magpieBridge", title := c.title, showOptions := .Beside,
        options := { enableScripts := true, enableCommandUris := true },
        html := c.html, listeners := 1 }) := by
  induction calls generalizing s with
  | nil => simp [showHTMLAll]
  | cons c cs ih => simp [showHTMLAll, ih, showHTML_panels]

/-- C5: a sequence of N `magpiebridge/showHTML` notifications adds exactly N
panels; the panels that existed before are unchanged, and the contents of the
new panels are, in order, the html of the calls, so no later call has changed
the content an earlier call set. -/
theorem showHTML_creates_one_panel_each (calls : List ShowHTMLParams) (s : State) :
    (showHTMLAll calls s).panels.length = s.panels.length + calls.length ∧
    (showHTMLAll calls s).panels.take s.panels.length = s.panels ∧
    ((showHTMLAll calls s).panels.drop s.panels.length).map (·.html) = calls.map (·.html) ∧
    (∀ c : ShowHTMLParams,
      (showHTMLAll (calls ++ [c]) s).panels.take (s.panels.length + calls.length) =
        (showHTMLAll calls s).panels) := by
  refine ⟨?_, ?_, ?_, ?_⟩
  · simp [showHTMLAll_panels]
  · simp [showHTMLAll_panels]
  · simp [showHTMLAll_panels, Function.comp_def]
  · intro c
    rw [showHTMLAll_panels, showHTMLAll_panels, List.map_append, ← List.append_assoc]
    have hlen : s.panels.length + calls.length =
        (s.panels ++ calls.map (fun c =>
          ({ viewType := "magpieBridge", title := c.title, showOptions := .Beside,
             options := { enableScripts := true, enableCommandUris := true },
             html := c.html, listeners := 1 } : WebviewPanel))).length := by simp
    rw [hlen, List.take_left]

/-- C6: the `magpiebridge/showHTML` handler adds one panel; it has the given
title, is placed beside the active editor, has scripts and command URIs
enabled, and its content is the given html unchanged, whatever `popup` is. -/
theorem showHTML_panel_properties (html title : String) (popup : JSValue) (s : State) :
    ∃ p, (showHTMLHandler html title popup s).panels = s.panels ++ [p] ∧
      p.title = title ∧ p.showOptions = ViewColumn.Beside ∧
      p.options.enableScripts = true ∧ p.options.enableCommandUris = true ∧
      p.html = html :=
  ⟨_, showHTML_panels html title popup s, rfl, rfl, rfl, rfl, rfl⟩

/-- The scenario of C6: html `<b>hi</b>`, title `Report`, popup `true`. -/
theorem showHTML_report_scenario :
    ∃ p, (showHTMLHandler "<b>hi</b>" "Report" (.boolean true) twoPanes).panels = [p] ∧
      p.title = "Report" ∧ p.showOptions = ViewColumn.Beside ∧
      p.options.enableScripts = true ∧ p.options.enableCommandUris = true ∧
      p.html = "<b>hi</b>" :=
  showHTML_panel_properties "<b>hi</b>" "Report" (.boolean true) twoPanes

/-! ## The panel message listener -/

theorem strictEqString_eq_true (v : JSValue) (t : String) :
    v.strictEqString t = true ↔ v = .string t := by
  cases v <;> simp [JSValue.strictEqString]

/-- The message of the scenario: command `jumpTo`, payload `http://x/y`. -/
def payloadMessage : JSValue :=
  .object (.cons "command" (.string "jumpTo") (.cons "payload" (.string "http://x/y") .nil))

/-- A message as the listener reads it: command `jumpTo`, text `http://x/y`. -/
def textMessage : JSValue :=
  .object (.cons "command" (.string "jumpTo") (.cons "text" (.string "http://x/y") .nil))

/-- A message with a command the listener has no case for. -/
def refreshMessage : JSValue :=
  .object (.cons "command" (.string "refresh") (.cons "text" (.string "http://x/y") .nil))

/-- A message whose text is no URL. -/
def badUrlMessage : JSValue :=
  .object (.cons "command" (.string "jumpTo") (.cons "text" (.string "not a url") .nil))

theorem panel_jumpTo_calls_get (http : HttpModule) (message : JSValue) (s : State)
    (h : message.getProp "command" = .ok (.string "jumpTo")) :
    ∃ text, message.getProp "text" = .ok text ∧
      onDidReceiveMessage http message s = httpGet http text s := by
  cases message with
  | undefined => simp [JSValue.getProp] at h
  | null => simp [JSValue.getProp] at h
  | boolean b => simp [JSValue.getProp] at h
  | number n => simp [JSValue.getProp] at h
  | string t => simp [JSValue.getProp] at h
  | object props =>
    refine ⟨(props.find "text").getD .undefined, rfl, ?_⟩
    have htrue : (JSValue.string "jumpTo").strictEqString "jumpTo" = true := by
      simp [JSValue.strictEqString]
    simp only [onDidReceiveMessage, h, bind, Except.bind, htrue, if_true]
    rfl

/-- When `http.get` refuses the text of a `jumpTo` message, the listener raises
the fault of `http.get` and no request is issued. -/
theorem panel_jumpTo_refused (http : HttpModule) (message : JSValue) (s : State)
    (fault : Fault) (h : message.getProp "command" = .ok (.string "jumpTo")) :
    ∃ text, message.getProp "text" = .ok text ∧
      (http.rejects text = some fault → onDidReceiveMessage http message s = .error fault) := by
  obtain ⟨text, htext, hget⟩ := panel_jumpTo_calls_get http message s h
  refine ⟨text, htext, ?_⟩
  intro hrej
  rw [hget]
  simp [httpGet, hrej]

/-- C3, as stated, fails.  On the message with command `jumpTo` and payload
`http://x/y` the listener hands `message.text`, which is `undefined` here, to
`http.get`: whatever the `http` module does, no GET to the payload is issued.
On a `jumpTo` message whose text the `http` module refuses, `http.get` throws:
no GET is issued and the fault leaves the listener. -/
theorem panel_jumpTo_ignores_payload :
    payloadMessage.getProp "payload" = .ok (.string "http://x/y") ∧
    payloadMessage.getProp "text" = .ok .undefined ∧
    (∀ (http : HttpModule) (s1 : State),
      onDidReceiveMessage http payloadMessage twoPanes = .ok s1 →
        s1.fetches = [JSValue.undefined] ∧ s1.fetches ≠ [JSValue.string "http://x/y"]) ∧
    (∀ (http : HttpModule) (fault : Fault),
      http.rejects (.string "not a url") = some fault →
        onDidReceiveMessage http badUrlMessage twoPanes = .error fault) := by
  refine ⟨rfl, rfl, ?_, ?_⟩
  · intro http s1 h
    have hget : onDidReceiveMessage http payloadMessage twoPanes =
        httpGet http .undefined twoPanes := rfl
    rw [hget] at h
    unfold httpGet at h
    cases hrej : http.rejects .undefined with
    | some fault => simp [hrej] at h
    | none =>
      simp only [hrej] at h
      cases Except.ok.inj h
      exact ⟨rfl, by decide⟩
  · intro http fault hrej
    have hget : onDidReceiveMessage http badUrlMessage twoPanes =
        httpGet http (.string "not a url") twoPanes := rfl
    rw [hget]
    simp [httpGet, hrej]

/-- C3, amended: on every message whose command is `jumpTo` and whose `text`
property `http.get` takes, the listener issues exactly one GET, with the
`text` property of the message as its target, changes nothing else and
returns without a fault. -/
theorem panel_jumpTo_issues_one_get (http : HttpModule) (message text : JSValue) (s : State)
    (h : message.getProp "command" = .ok (.string "jumpTo"))
    (htext : message.getProp "text" = .ok text)
    (htakes : http.rejects text = none) :
    onDidReceiveMessage http message s =
      .ok { s with requests := s.requests ++ [{ url := text, data := none }] } := by
  obtain ⟨text1, htext1, hget⟩ := panel_jumpTo_calls_get http message s h
  rw [htext] at htext1
  cases Except.ok.inj htext1
  rw [hget]
  simp [httpGet, htakes]

/-- Witness of the amended C3 on the message with text `http://x/y`. -/
theorem panel_jumpTo_issues_one_get_witness :
    onDidReceiveMessage stubHttp textMessage twoPanes =
      .ok { twoPanes with
        requests := twoPanes.requests ++ [{ url := .string "http://x/y", data := none }] } :=
  panel_jumpTo_issues_one_get stubHttp textMessage (.string "http://x/y") twoPanes rfl rfl rfl

/-- C4: on every message whose command is not the string `jumpTo` the listener
returns without a fault and leaves the whole state as it was: no `http.get`,
no log entry, no change to a panel or an editor. -/
theorem panel_other_command_is_noop (http : HttpModule) (message command : JSValue)
    (s : State) (h : message.getProp "command" = .ok command)
    (hne : command ≠ .string "jumpTo") :
    onDidReceiveMessage http message s = .ok s := by
  have hfalse : command.strictEqString "jumpTo" = false := by
    cases hc : command.strictEqString "jumpTo" with
    | false => rfl
    | true => exact absurd ((strictEqString_eq_true command "jumpTo").mp hc) hne
  simp [onDidReceiveMessage, h, bind, Except.bind, pure, Except.pure, hfalse]

/-- Witness of C4 on a message whose command is `refresh`. -/
theorem panel_other_command_is_noop_witness :
    onDidReceiveMessage stubHttp refreshMessage twoPanes = .ok twoPanes :=
  panel_other_command_is_noop stubHttp refreshMessage (.string "refresh") twoPanes rfl
    (by decide)

/-! ## The callbacks of the request -/

theorem run_append (http : HttpModule) (dt : TextEditorDecorationType)
    (evs1 evs2 : List Event) (s : State) :
    run http dt (evs1 ++ evs2) s = run http dt evs2 (run http dt evs1 s) := by
  induction evs1 generalizing s with
  | nil => rfl
  | cons ev evs ih =>
    simp only [List.cons_append, run]
    cases step http dt ev s <;> simp [ih]

theorem map_url_modify (f : ClientRequest → ClientRequest) (hf : ∀ r, (f r).url = r.url)
    (l : List ClientRequest) (n : Nat) :
    (l.modify f n).map (·.url) = l.map (·.url) := by
  apply List.ext_getElem?
  intro m
  simp only [List.getElem?_map, List.getElem?_modify]
  cases l[m]? with
  | none => rfl
  | some r =>
    by_cases h : n = m
    · simp [h, hf]
    · simp [h]

theorem responding_of_data (req : Nat) (s : State) (d : String)
    (h : (s.requests[req]?).map (·.data) = some (some d)) : responding req s = true := by
  unfold responding
  cases hr : s.requests[req]? with
  | none => simp [hr] at h
  | some r =>
    simp only [hr, Option.map_some', Option.some.injEq] at h
    simp [h]

theorem run_data (http : HttpModule) (dt : TextEditorDecorationType)
    (req : Nat) (chunks : List String) :
    ∀ (s : State) (d : String), (s.requests[req]?).map (·.data) = some (some d) →
      (run http dt (chunks.map (.data req)) s).editors = s.editors ∧
      (run http dt (chunks.map (.data req)) s).decorationTypes = s.decorationTypes ∧
      (run http dt (chunks.map (.data req)) s).panels = s.panels ∧
      (run http dt (chunks.map (.data req)) s).subscriptions = s.subscriptions ∧
      (run http dt (chunks.map (.data req)) s).console = s.console ∧
      (run http dt (chunks.map (.data req)) s).client = s.client ∧
      (run http dt (chunks.map (.data req)) s).fetches = s.fetches ∧
      ((run http dt (chunks.map (.data req)) s).requests[req]?).map (·.data) =
        some (some (chunks.foldl (· ++ ·) d)) := by
  induction chunks with
  | nil =>
    intro s d h
    exact ⟨rfl, rfl, rfl, rfl, rfl, rfl, rfl, h⟩
  | cons c cs ih =>
    intro s d h
    have hresp := responding_of_data req s d h
    have hstep : run http dt ((c :: cs).map (.data req)) s =
        run http dt (cs.map (.data req)) (dataCallback req c s) := by
      simp [run, step, hresp]
    have hdata : ((dataCallback req c s).requests[req]?).map (·.data) = some (some (d ++ c)) := by
      simp only [dataCallback, List.getElem?_modify_eq]
      cases hr : s.requests[req]? with
      | none => simp [hr] at h
      | some r =>
        simp only [hr, Option.map_some', Option.some.injEq] at h
        simp [h]
    have hfetch : (dataCallback req c s).fetches = s.fetches := by
      simp only [dataCallback, State.fetches]
      apply map_url_modify
      intro r
      rfl
    obtain ⟨h1, h2, h3, h4, h5, h6, h7, h8⟩ := ih (dataCallback req c s) (d ++ c) hdata
    rw [hstep]
    exact ⟨h1, h2, h3, h4, h5, h6, h7.trans hfetch, h8⟩

theorem response_data (req : Nat) (s : State) (h : req < s.requests.length) :
    ((responseCallback req s).requests[req]?).map (·.data) = some (some "") := by
  simp only [responseCallback, List.getElem?_modify_eq]
  simp [List.getElem?_eq_getElem h]

theorem response_fetches (req : Nat) (s : State) :
    (responseCallback req s).fetches = s.fetches := by
  simp only [responseCallback, State.fetches]
  apply map_url_modify
  intro r
  rfl

/-- A host where one request to `http://x/y` has been issued. -/
def oneRequest : State :=
  { twoPanes with requests := [{ url := .string "http://x/y", data := none }] }

/-- C7: when the error event of an issued request is delivered with error
`err`, the error callback appends the one log entry `Error: ` followed by the
message of `err`; nothing else in the state changes (no further request, no
panel or editor change) and no fault is raised. -/
theorem error_callback_logs_once (http : HttpModule) (dt : TextEditorDecorationType)
    (s : State) (req : Nat)
    (err : JSError) (h : req < s.requests.length) :
    step http dt (.error req err) s =
      .ok { s with console := s.console ++ ["Error: " ++ err.message] } := by
  simp [step, h, errorCallback, consoleLog]

/-- Witness of C7: a refused connection on the one issued request. -/
theorem error_callback_logs_once_witness :
    step stubHttp ⟨0⟩ (.error 0 { message := "connect ECONNREFUSED" }) oneRequest =
      .ok { oneRequest with
        console := oneRequest.console ++ ["Error: " ++ "connect ECONNREFUSED"] } :=
  error_callback_logs_once stubHttp ⟨0⟩ oneRequest 0 { message := "connect ECONNREFUSED" } (by decide)

/-- C8, as stated, fails: after a response with chunks `ab` and `c` has ended,
the log holds the entry `DONE`, while it was empty before the response. -/
theorem response_end_changes_log :
    oneRequest.console = [] ∧
    (run stubHttp ⟨0⟩ (responseEvents 0 ["ab", "c"]) oneRequest).console = ["DONE"] ∧
    (run stubHttp ⟨0⟩ (responseEvents 0 ["ab", "c"]) oneRequest).console ≠ oneRequest.console :=
  ⟨rfl, rfl, by decide⟩

/-- C8, amended: for every issued request and every sequence of chunks, the
chunks are accumulated in `data` (their concatenation once all have arrived),
and after the end event the state differs from the state before the response
only by the one log entry `DONE`: requests issued, panels, editors with their
decorations, decoration types, subscriptions and client are as before, and the
log does not depend on the chunks. -/
theorem response_end_logs_done (http : HttpModule) (dt : TextEditorDecorationType)
    (s : State) (req : Nat)
    (chunks : List String) (h : req < s.requests.length) :
    ((run http dt (.response req :: chunks.map (.data req)) s).requests[req]?).map (·.data) =
      some (some (chunks.foldl (· ++ ·) "")) ∧
    (run http dt (responseEvents req chunks) s).console = s.console ++ ["DONE"] ∧
    (run http dt (responseEvents req chunks) s).fetches = s.fetches ∧
    (run http dt (responseEvents req chunks) s).panels = s.panels ∧
    (run http dt (responseEvents req chunks) s).editors = s.editors ∧
    (run http dt (responseEvents req chunks) s).decorationTypes = s.decorationTypes ∧
    (run http dt (responseEvents req chunks) s).subscriptions = s.subscriptions ∧
    (run http dt (responseEvents req chunks) s).client = s.client := by
  obtain ⟨h1, h2, h3, h4, h5, h6, h7, h8⟩ :=
    run_data http dt req chunks (responseCallback req s) "" (response_data req s h)
  have hfirst : ∀ evs, run http dt (.response req :: evs) s = run http dt evs (responseCallback req s) := by
    intro evs
    simp [run, step]
  have hresp := responding_of_data req _ _ h8
  have hlast : run http dt (responseEvents req chunks) s =
      endCallback (run http dt (chunks.map (.data req)) (responseCallback req s)) := by
    rw [responseEvents, hfirst, run_append]
    simp [run, step, hresp]
  refine ⟨?_, ?_, ?_, ?_, ?_, ?_, ?_, ?_⟩
  · rw [hfirst]
    exact h8
  · rw [hlast]
    show (run http dt (chunks.map (.data req)) (responseCallback req s)).console ++ ["DONE"] = _
    rw [h5]
    rfl
  · rw [hlast]
    have : (endCallback (run http dt (chunks.map (.data req)) (responseCallback req s))).fetches =
        (run http dt (chunks.map (.data req)) (responseCallback req s)).fetches := rfl
    rw [this, h7, response_fetches]
  · rw [hlast]
    exact h3
  · rw [hlast]
    exact h1
  · rw [hlast]
    exact h2
  · rw [hlast]
    exact h4
  · rw [hlast]
    exact h6

/-- Witness of the amended C8: a response in two chunks to the one issued
request. -/
theorem response_end_logs_done_witness :
    ((run stubHttp ⟨0⟩ (.response 0 :: ["ab", "c"].map (.data 0)) oneRequest).requests[0]?).map (·.data) =
      some (some (["ab", "c"].foldl (· ++ ·) "")) ∧
    (run stubHttp ⟨0⟩ (responseEvents 0 ["ab", "c"]) oneRequest).console = oneRequest.console ++ ["DONE"] ∧
    (run stubHttp ⟨0⟩ (responseEvents 0 ["ab", "c"]) oneRequest).fetches = oneRequest.fetches ∧
    (run stubHttp ⟨0⟩ (responseEvents 0 ["ab", "c"]) oneRequest).panels = oneRequest.panels ∧
    (run stubHttp ⟨0⟩ (responseEvents 0 ["ab", "c"]) oneRequest).editors = oneRequest.editors ∧
    (run stubHttp ⟨0⟩ (responseEvents 0 ["ab", "c"]) oneRequest).decorationTypes =
      oneRequest.decorationTypes ∧
    (run stubHttp ⟨0⟩ (responseEvents 0 ["ab", "c"]) oneRequest).subscriptions =
      oneRequest.subscriptions ∧
    (run stubHttp ⟨0⟩ (responseEvents 0 ["ab", "c"]) oneRequest).client = oneRequest.client :=
  response_end_logs_done stubHttp ⟨0⟩ oneRequest 0 ["ab", "c"] (by decide)

/-! ## The decoration type -/

theorem onDidReceiveMessage_cases (http : HttpModule) (message : JSValue) (s s1 : State)
    (h : onDidReceiveMessage http message s = .ok s1) :
    s1 = s ∨ ∃ text, s1 = { s with requests := s.requests ++ [{ url := text, data := none }] } := by
  cases message with
  | undefined => simp [onDidReceiveMessage, JSValue.getProp, bind, Except.bind] at h
  | null => simp [onDidReceiveMessage, JSValue.getProp, bind, Except.bind] at h
  | boolean b =>
    simp [onDidReceiveMessage, JSValue.getProp, bind, Except.bind, pure, Except.pure,
      JSValue.strictEqString] at h
    exact Or.inl h.symm
  | number n =>
    simp [onDidReceiveMessage, JSValue.getProp, bind, Except.bind, pure, Except.pure,
      JSValue.strictEqString] at h
    exact Or.inl h.symm
  | string t =>
    simp [onDidReceiveMessage, JSValue.getProp, bind, Except.bind, pure, Except.pure,
      JSValue.strictEqString] at h
    exact Or.inl h.symm
  | object props =>
    simp only [onDidReceiveMessage, JSValue.getProp, bind, Except.bind, pure, Except.pure] at h
    split at h
    · unfold httpGet at h
      split at h
      · cases h
      · exact Or.inr ⟨_, (Except.ok.inj h).symm⟩
    · exact Or.inl (Except.ok.inj h).symm

theorem step_decorationTypes (http : HttpModule) (dt : TextEditorDecorationType)
    (ev : Event) (s s1 : State)
    (h : step http dt ev s = .ok s1) : s1.decorationTypes = s.decorationTypes := by
  cases ev with
  | ready =>
    cases Except.ok.inj h
    rfl
  | jumpTo loc =>
    simp only [step] at h
    split at h <;> cases Except.ok.inj h <;> rfl
  | showHTML html title popup =>
    simp only [step] at h
    split at h <;> cases Except.ok.inj h <;> rfl
  | message panel message =>
    simp only [step] at h
    split at h
    · rcases onDidReceiveMessage_cases http message s s1 h with h1 | ⟨text, h1⟩ <;> subst h1 <;> rfl
    · cases Except.ok.inj h
      rfl
  | response req =>
    cases Except.ok.inj h
    rfl
  | data req chunk =>
    simp only [step] at h
    split at h <;> cases Except.ok.inj h <;> rfl
  | «end» req =>
    simp only [step] at h
    split at h <;> cases Except.ok.inj h <;> rfl
  | error req err =>
    simp only [step] at h
    split at h <;> cases Except.ok.inj h <;> rfl

theorem run_decorationTypes (http : HttpModule) (dt : TextEditorDecorationType)
    (evs : List Event) (s : State) :
    (run http dt evs s).decorationTypes = s.decorationTypes := by
  induction evs generalizing s with
  | nil => rfl
  | cons ev evs ih =>
    simp only [run]
    cases hstep : step http dt ev s with
    | error f => exact ih s
    | ok s1 => exact (ih s1).trans (step_decorationTypes http dt ev s s1 hstep)

/-- C10: one call of `activate` on a fresh host creates exactly one decoration
type, with key 0.  Whatever events are delivered afterwards, the list of
created decoration types stays that one type, and a `magpiebridge/jumpTo`
notification handled in any such state sets the ranges of that type, and of no
other decoration type, in each visible pane. -/
theorem single_decoration_type (http : HttpModule) (resources : String) (editors : List TextEditor)
    (evs : List Event) :
    (activate resources (State.initial editors)).2.decorationTypes =
      [{ border := "2px solid white" }] ∧
    (activate resources (State.initial editors)).1 = ⟨0⟩ ∧
    (run http (activate resources (State.initial editors)).1 evs
      (activate resources (State.initial editors)).2).decorationTypes =
      [{ border := "2px solid white" }] ∧
    (∀ (loc : Location) (i : Nat) (e : TextEditor),
      (run http (activate resources (State.initial editors)).1 evs
        (activate resources (State.initial editors)).2).editors[i]? = some e →
      e.visible = true →
      hasHandler "magpiebridge/jumpTo"
        (run http (activate resources (State.initial editors)).1 evs
          (activate resources (State.initial editors)).2) = true →
      ∃ s1 e1,
        step http (activate resources (State.initial editors)).1 (.jumpTo loc)
          (run http (activate resources (State.initial editors)).1 evs
            (activate resources (State.initial editors)).2) = .ok s1 ∧
        s1.decorationTypes = [{ border := "2px solid white" }] ∧
        s1.editors[i]? = some e1 ∧
        e1.decorated ⟨0⟩ = [loc.range] ∧
        ∀ j, j ≠ 0 → e1.decorations.lookup j = e.decorations.lookup j) := by
  have hdt : (activate resources (State.initial editors)).1 = ⟨0⟩ := rfl
  have hs0 : (activate resources (State.initial editors)).2.decorationTypes =
      [{ border := "2px solid white" }] := rfl
  refine ⟨hs0, hdt, ?_, ?_⟩
  · rw [run_decorationTypes, hs0]
  · intro loc i e he hv hh
    rw [hdt] at he hh ⊢
    refine ⟨_, _, ?_, ?_, jumpTo_visible_step ⟨0⟩ loc _ i e he hv, ?_, ?_⟩
    · simp [step, hh]
    · show (run http ⟨0⟩ evs (activate resources (State.initial editors)).2).decorationTypes = _
      rw [run_decorationTypes, hs0]
    · exact decorated_setDecorations _ ⟨0⟩ [loc.range]
    · intro j hj
      exact setDecorations_other _ ⟨0⟩ [loc.range] j hj

/-- A scenario for C10: after the client is ready, a panel is opened, a panel
message is handled and a jump is made; one decoration type exists and the
visible pane holds the range under key 0. -/
theorem single_decoration_type_scenario :
    (run stubHttp (activate "/ext/resources" (State.initial [paneA, paneB])).1
      [.ready, .showHTML "<b>hi</b>" "Report" (.boolean true), .message 0 textMessage,
       .jumpTo locA]
      (activate "/ext/resources" (State.initial [paneA, paneB])).2).decorationTypes.length = 1 ∧
    ((run stubHttp (activate "/ext/resources" (State.initial [paneA, paneB])).1
      [.ready, .showHTML "<b>hi</b>" "Report" (.boolean true), .message 0 textMessage,
       .jumpTo locA]
      (activate "/ext/resources" (State.initial [paneA, paneB])).2).editors.map (·.decorations)) =
      [[(0, [rangeA])], [(5, [rangeB])]] := by
  constructor
  · rw [(single_decoration_type stubHttp "/ext/resources" [paneA, paneB] _).2.2.1]
    rfl
  · decide

end MagpieBridge
